import Mathlib

/-!
# Verification of `generate_kubectl_manifests.py`

A shallow embedding of the manifest-generator script for a Scoop-style
"bucket" repository, together with theorems about the properties claimed
by its specification.

Modelling conventions:
* Python dicts are ordered association lists (`List (String × _)`), matching
  Python 3.7+ insertion-order semantics; dict keys are unique by construction.
* Python exceptions are values of `PyErr`; fallible code returns `Except PyErr _`.
* The network is an explicit oracle (`NetEnv`): `text url` is the body that
  `fetch_text` would return for `url` (or the exception the request raises),
  `json url` is the decoded body that `resp.json()` would return.
* The output directory is an explicit file-system state `FS` mapping file
  names to their textual content.
* `print` output is modelled as an accumulated list of log lines.
-/

set_option maxRecDepth 8000

/-- JSON values, as produced by Python's `json` module restricted to the shapes
this program manipulates.  Objects are insertion-ordered association lists with
unique keys (Python dict semantics); numbers are integers (`float` never occurs
in the manifests this program builds or compares). -/
inductive Json where
  | null : Json
  | bool (b : Bool) : Json
  | num (n : Int) : Json
  | str (s : String) : Json
  | arr (xs : List Json) : Json
  | obj (kvs : List (String × Json)) : Json

/-- Python dict lookup `d[k]` / `k in d` support: first entry with the key. -/
def jsonLookup : List (String × Json) → String → Option Json
  | [], _ => none
  | (k, v) :: rest, key => if k == key then some v else jsonLookup rest key

/-- `m[key]` on a JSON value: defined for objects only. -/
def jsonGet : Json → String → Option Json
  | .obj kvs, key => jsonLookup kvs key
  | _, _ => none

/-- Python truthiness (`not data` gates) on JSON values. -/
def jsonFalsy : Json → Bool
  | .null => true
  | .bool b => !b
  | .num n => n == 0
  | .str s => s.isEmpty
  | .arr xs => xs.isEmpty
  | .obj kvs => kvs.isEmpty

mutual

/-- Python `==` on decoded JSON values: structural on scalars and lists;
on dicts, equal key sets with `==` values (insertion order irrelevant),
which for unique-key dicts — the only dicts Python can represent — is
exactly CPython's `dict.__eq__`. -/
def jsonEq : Json → Json → Bool
  | .null, b => match b with | .null => true | _ => false
  | .bool a, b => match b with | .bool b2 => a == b2 | _ => false
  | .num a, b => match b with | .num b2 => a == b2 | _ => false
  | .str a, b => match b with | .str b2 => a == b2 | _ => false
  | .arr xs, b => match b with | .arr ys => jsonEqList xs ys | _ => false
  | .obj xs, b =>
    match b with
    | .obj ys => xs.length == ys.length && jsonEqFields xs ys
    | _ => false

def jsonEqList : List Json → List Json → Bool
  | [], ys => ys.isEmpty
  | x :: xs, ys =>
    match ys with
    | [] => false
    | y :: ys2 => jsonEq x y && jsonEqList xs ys2

def jsonEqFields : List (String × Json) → List (String × Json) → Bool
  | [], _ => true
  | (k, v) :: xs, ys =>
    (match jsonLookup ys k with
     | some w => jsonEq v w
     | none => false)
    && jsonEqFields xs ys

end

/-! ## Python string primitives used by the script -/

/-- Characters Python's `str.strip()` / `str.split()` treat as whitespace. -/
def pyIsSpace (c : Char) : Bool :=
  c == ' ' || c == '\t' || c == '\n' || c == '\r' || c == '\x0b' || c == '\x0c'

/-- Split a character list at every character satisfying `p`, keeping empty
fields (the splitting behaviour of Python's `str.split(sep)`). -/
def splitCharsP (p : Char → Bool) : List Char → List (List Char)
  | [] => [[]]
  | c :: cs =>
      if p c then [] :: splitCharsP p cs
      else (c :: (splitCharsP p cs).headD []) :: (splitCharsP p cs).tail

/-- `str.split(sep)` for a one-character separator, on the character list. -/
def splitChars (sep : Char) : List Char → List (List Char) :=
  splitCharsP (· == sep)

/-- Python `s.split(sep)` for a one-character separator. -/
def pySplit (s : String) (sep : Char) : List String :=
  (splitChars sep s.data).map List.asString

/-- Python `s.strip()` (whitespace strip on both ends). -/
def pyStrip (s : String) : String :=
  List.asString (((s.data.dropWhile pyIsSpace).reverse.dropWhile pyIsSpace).reverse)

/-- Python `s.lstrip(c)` for a one-character argument: drops every leading
occurrence of that character. -/
def pyLStrip (s : String) (c : Char) : String :=
  List.asString (s.data.dropWhile (· == c))

/-- Python `s.split()` (no argument): split on whitespace runs, discarding
empty fields. -/
def pySplitWs (s : String) : List String :=
  ((splitCharsP pyIsSpace s.data).filter (fun w => !w.isEmpty)).map List.asString

/-- Value of a non-empty all-digit character list, else `none`. -/
def digitsVal (cs : List Char) : Option Nat :=
  if cs.isEmpty then none
  else cs.foldl
    (fun acc c =>
      match acc with
      | none => none
      | some n => if c.isDigit then some (n * 10 + (c.toNat - 48)) else none)
    (some 0)

/-- Python `int(s)`: optional surrounding whitespace, optional sign, decimal
digits.  (Underscore digit separators, accepted by CPython, are not modelled;
no input of this program contains them.)  `none` models the `ValueError` that
`int` raises otherwise. -/
def pyInt (s : String) : Option Int :=
  match (pyStrip s).data with
  | '+' :: ds => (digitsVal ds).map Int.ofNat
  | '-' :: ds => (digitsVal ds).map (fun n => -(Int.ofNat n))
  | ds => (digitsVal ds).map Int.ofNat

/-! ## Version parsing and capability gating -/

/-- `parse_version`: drop everything from the first `-` on (pre-release
suffixes), split the rest on `.`, convert each field with `int`.  `none`
models the `ValueError` raised on a malformed field. -/
def parse_version (version_str : String) : Option (List Int) :=
  let base_version := (pySplit version_str '-').headD ""
  (pySplit base_version '.').mapM pyInt

/-- Python `<` on int tuples: lexicographic, a strict prefix is smaller. -/
def pyTupleLt : List Int → List Int → Bool
  | [], [] => false
  | [], _ :: _ => true
  | _ :: _, [] => false
  | a :: as, b :: bs => a < b || (a == b && pyTupleLt as bs)

/-- Python `>=` on int tuples (total order, so `a >= b ↔ ¬ a < b`). -/
def pyTupleGe (a b : List Int) : Bool := !pyTupleLt a b

def ARCHS_BASE : List (String × String) := [("64bit", "amd64"), ("32bit", "386")]

def ARM64_START_VERSION : List Int := [1, 21, 0]

def CONVERT_START_VERSION : List Int := [1, 22, 0]

def FEATURE_VERSIONS : List String := ["1.20", "1.21", "1.22"]

def LATEST_VERSION_FILE : String := "kubectl.json"

/-- `need_convert`: `parse_version(version) >= CONVERT_START_VERSION`
(`none` when `parse_version` raises). -/
def need_convert (version : String) : Option Bool :=
  (parse_version version).map (fun t => pyTupleGe t CONVERT_START_VERSION)

/-- `archs_for_version`: copy of `ARCHS_BASE`, plus an `arm64` entry when
`parse_version(version) >= ARM64_START_VERSION`. -/
def archs_for_version (version : String) : Option (List (String × String)) :=
  (parse_version version).map (fun t =>
    if pyTupleGe t ARM64_START_VERSION then ARCHS_BASE ++ [("arm64", "arm64")]
    else ARCHS_BASE)

example : parse_version "1.20.15" = some [1, 20, 15] := rfl
example : parse_version "1.21" = some [1, 21] := rfl
example : parse_version "1.22.0-rc.1" = some [1, 22, 0] := rfl
example : parse_version "1.2x.0" = none := rfl
example : pyTupleGe [1, 21] [1, 21, 0] = false := rfl
example : archs_for_version "1.21.5" =
    some [("64bit", "amd64"), ("32bit", "386"), ("arm64", "arm64")] := rfl
example : need_convert "1.21.9" = some false := rfl

/-! ## Exceptions and the network oracle -/

/-- The exception classes relevant to this script.  `clientResponseError` is
`aiohttp.ClientResponseError` (raised by `resp.raise_for_status()` on a
non-2xx status); every other constructor is NOT an instance of that class, so
`except aiohttp.ClientResponseError` does not catch it. -/
inductive PyErr where
  | clientResponseError (msg : String)
  | timeoutError
  | connectionError (msg : String)
  | valueError (msg : String)
  | indexError
  | jsonDecodeError (msg : String)
  | otherError (msg : String)
deriving DecidableEq

/-- The rendering `str(e)` used when an exception is interpolated into a log
line (modelled as the carried message). -/
def errMsg : PyErr → String
  | .clientResponseError m => m
  | .timeoutError => "TimeoutError"
  | .connectionError m => m
  | .valueError m => m
  | .indexError => "list index out of range"
  | .jsonDecodeError m => m
  | .otherError m => m

/-- The network, as an oracle: `text url` is what `fetch_text(session, url)`
returns for `url` (or the exception the request raises); `json url` is what
`resp.json()` yields for `url` in `fetch_github_tags_for_version`. -/
structure NetEnv where
  text : String → Except PyErr String
  json : String → Except PyErr Json

/-- `fetch_text`: one GET, body as text (errors are the oracle's). -/
def fetch_text (env : NetEnv) (url : String) : Except PyErr String :=
  env.text url

/-- `fetch_version_file`: fetch, strip whitespace, strip leading `v`s. -/
def fetch_version_file (env : NetEnv) (url : String) : Except PyErr String :=
  (fetch_text env url).map (fun text => pyLStrip (pyStrip text) 'v')

/-- `fetch_sha256`: fetch the checksum file and take the first
whitespace-separated word (`txt.strip().split()[0]`; `IndexError` when the
body has no word). -/
def fetch_sha256 (env : NetEnv) (url : String) : Except PyErr String :=
  match fetch_text env url with
  | .error e => .error e
  | .ok txt =>
    match pySplitWs (pyStrip txt) with
    | [] => .error .indexError
    | w :: _ => .ok w

/-! ## Manifest assembly (`generate_manifest_dict`) -/

/-- Download URL for one architecture build of one version. -/
def dlUrl (version folder : String) : String :=
  "https://dl.k8s.io/release/v" ++ version ++ "/kubernetes-client-windows-" ++ folder ++ ".tar.gz"

/-- Checksum-file URL for one architecture build of one version. -/
def shaUrl (version folder : String) : String :=
  dlUrl version folder ++ ".sha256"

/-- The `$version`-templated download URL placed in the autoupdate block. -/
def autoUrl (folder : String) : String :=
  "https://dl.k8s.io/release/v$version/kubernetes-client-windows-" ++ folder ++ ".tar.gz"

/-- One `arch_dict` entry: download URL and the eagerly fetched hash value. -/
def archEntry (version folder hash_256 : String) : Json :=
  Json.obj [("url", .str (dlUrl version folder)), ("hash", .str hash_256)]

/-- The log line for a successfully added architecture. -/
def infoAdded (arch_name version : String) : String :=
  "[INFO] Added " ++ arch_name ++ " architecture for version " ++ version

/-- The log line for an architecture skipped on a `ClientResponseError`. -/
def warnSkip (arch_name version msg : String) : String :=
  "[WARN] Skipping " ++ arch_name ++ " architecture for version " ++ version ++ ": " ++ msg

/-- The per-architecture loop of `generate_manifest_dict`: fetch each
checksum; on `aiohttp.ClientResponseError` log a warning and skip that
architecture; any other exception propagates.  Returns the `arch_dict`
entries in arch order together with the log lines printed. -/
def build_arch_dict (env : NetEnv) (version : String) :
    List (String × String) → Except PyErr (List (String × Json) × List String)
  | [] => .ok ([], [])
  | (arch_name, folder) :: rest =>
    match fetch_sha256 env (shaUrl version folder) with
    | .ok hash_256 =>
      match build_arch_dict env version rest with
      | .ok (tail, log) =>
        .ok ((arch_name, archEntry version folder hash_256) :: tail,
             infoAdded arch_name version :: log)
      | .error e => .error e
    | .error (.clientResponseError msg) =>
      match build_arch_dict env version rest with
      | .ok (tail, log) =>
        .ok (tail, warnSkip arch_name version msg :: log)
      | .error e => .error e
    | .error e => .error e

/-- The autoupdate architecture map: one `$version`-templated URL entry per
architecture of `arches` whose name made it into `arch_dict`. -/
def autoupdate_arches (arches : List (String × String)) (arch_dict : List (String × Json)) :
    List (String × Json) :=
  arches.filterMap (fun p =>
    if arch_dict.any (fun q => q.1 == p.1) then
      some (p.1, Json.obj [("url", Json.str (autoUrl p.2))])
    else none)

/-- The manifest dict literal of `generate_manifest_dict`, with the computed
parts (`bins`, `arches`, `arch_dict`) as parameters. -/
def manifestDict (version : String) (bins : List String)
    (arches : List (String × String)) (arch_dict : List (String × Json)) : Json :=
  Json.obj [
    ("version", .str version),
    ("description", .str "Control the Kubernetes cluster manager."),
    ("homepage", .str "https://kubernetes.io/docs/reference/kubectl/"),
    ("license", .str "Apache-2.0"),
    ("architecture", .obj arch_dict),
    ("extract_dir", .str "kubernetes/client"),
    ("bin", .arr (bins.map (fun b => .str ("bin\\" ++ b)))),
    ("checkver", .obj [
      ("url", .str "https://dl.k8s.io/release/stable.txt"),
      ("regex", .str "v([\\d.]+)")]),
    ("autoupdate", .obj [
      ("architecture", .obj (autoupdate_arches arches arch_dict)),
      ("hash", .obj [("url", .str "$url.sha256")])])
  ]

/-- `generate_manifest_dict`: resolve the bundled binaries and supported
architectures for `version`, fetch each architecture's checksum (skipping it
on a `ClientResponseError`), and assemble the manifest dict.  Returns the
manifest together with the log lines printed. -/
def generate_manifest_dict (env : NetEnv) (version : String) :
    Except PyErr (Json × List String) :=
  match need_convert version with
  | none => .error (.valueError ("invalid literal for int() with base 10 in " ++ version))
  | some nc =>
    let bins := if nc then ["kubectl.exe", "kubectl-convert.exe"] else ["kubectl.exe"]
    match archs_for_version version with
    | none => .error (.valueError ("invalid literal for int() with base 10 in " ++ version))
    | some arches =>
      match build_arch_dict env version arches with
      | .error e => .error e
      | .ok (arch_dict, log) => .ok (manifestDict version bins arches arch_dict, log)

/-- A single-answer network: every text URL yields `body`, the JSON API is
unreachable. -/
def envConst (body : String) : NetEnv :=
  ⟨fun _ => .ok body, fun _ => .error (.otherError "unreachable")⟩

/-- A network on which every request fails with HTTP 404. -/
def envFail404 : NetEnv :=
  ⟨fun _ => .error (.clientResponseError "404, message=Not Found"),
   fun _ => .error (.clientResponseError "404, message=Not Found")⟩

example : fetch_sha256 (envConst "abc123  kubernetes-client-windows-amd64.tar.gz\n") "u" =
    .ok "abc123" := rfl
example : fetch_version_file (envConst " v1.20.15\n") "u" = .ok "1.20.15" := rfl
example : fetch_sha256 (envConst "  \n") "u" = .error .indexError := rfl
example :
    (generate_manifest_dict envFail404 "1.20.0").map (fun r => jsonGet r.1 "architecture") =
      .ok (some (.obj [])) := rfl
example :
    (generate_manifest_dict (envConst "cafe f") "1.20.0").map (fun r => jsonGet r.1 "architecture") =
      .ok (some (.obj [
        ("64bit", .obj [("url", .str (dlUrl "1.20.0" "amd64")), ("hash", .str "cafe")]),
        ("32bit", .obj [("url", .str (dlUrl "1.20.0" "386")), ("hash", .str "cafe")])])) := rfl

/-! ## `json.dumps(manifest, indent=2)` -/

/-- Lowercase hex digit. -/
def hexDigit (n : Nat) : Char :=
  if n < 10 then Char.ofNat (48 + n) else Char.ofNat (87 + n)

/-- Four lowercase hex digits, as in Python's `\uXXXX` escapes. -/
def hex4 (n : Nat) : String :=
  List.asString [hexDigit (n / 4096 % 16), hexDigit (n / 256 % 16),
                 hexDigit (n / 16 % 16), hexDigit (n % 16)]

/-- Escaping of one character inside a JSON string literal, following
`json.dumps` with its default `ensure_ascii=True`: characters outside
`0x20..0x7e` are escaped.  (Code points above `0xffff`, which Python encodes
as surrogate pairs, do not occur in this program's data and are rendered as a
single `\uXXXX` here.) -/
def jsonEscapeChar (c : Char) : String :=
  if c == '"' then "\\\""
  else if c == '\\' then "\\\\"
  else if c == '\n' then "\\n"
  else if c == '\t' then "\\t"
  else if c == '\r' then "\\r"
  else if c == '\x08' then "\\b"
  else if c == '\x0c' then "\\f"
  else if c.toNat < 32 || c.toNat ≥ 127 then "\\u" ++ hex4 c.toNat
  else List.asString [c]

/-- A JSON string literal as `json.dumps` renders it. -/
def jsonEscape (s : String) : String :=
  "\"" ++ String.join (s.data.map jsonEscapeChar) ++ "\""

/-- `indent=2` indentation prefix at nesting level `lvl`. -/
def indentStr (lvl : Nat) : String := String.join (List.replicate lvl "  ")

mutual

/-- `json.dumps(v, indent=2)` at nesting level `lvl`: key separator `": "`,
item separator `","` followed by a newline and indentation, insertion-ordered
keys (`sort_keys` is not passed). -/
def pyDumpsVal : Nat → Json → String
  | _, .null => "null"
  | _, .bool true => "true"
  | _, .bool false => "false"
  | _, .num n => toString n
  | _, .str s => jsonEscape s
  | _, .arr [] => "[]"
  | lvl, .arr (x :: xs) =>
      "[\n" ++ pyDumpsArrItems (lvl + 1) (x :: xs) ++ "\n" ++ indentStr lvl ++ "]"
  | _, .obj [] => "\x7b\x7d"
  | lvl, .obj (kv :: kvs) =>
      "\x7b\n" ++ pyDumpsObjItems (lvl + 1) (kv :: kvs) ++ "\n" ++ indentStr lvl ++ "\x7d"

def pyDumpsArrItems : Nat → List Json → String
  | _, [] => ""
  | lvl, [x] => indentStr lvl ++ pyDumpsVal lvl x
  | lvl, x :: y :: xs =>
      indentStr lvl ++ pyDumpsVal lvl x ++ ",\n" ++ pyDumpsArrItems lvl (y :: xs)

def pyDumpsObjItems : Nat → List (String × Json) → String
  | _, [] => ""
  | lvl, [(k, v)] => indentStr lvl ++ jsonEscape k ++ ": " ++ pyDumpsVal lvl v
  | lvl, (k, v) :: kv :: kvs =>
      indentStr lvl ++ jsonEscape k ++ ": " ++ pyDumpsVal lvl v ++ ",\n"
        ++ pyDumpsObjItems lvl (kv :: kvs)

end

/-- `json.dumps(manifest, indent=2)`. -/
def pyDumps (v : Json) : String := pyDumpsVal 0 v

example : pyDumps (.obj [("a", .num 1), ("b", .arr [.str "x\\y", .null])]) =
    "\x7b\n  \"a\": 1,\n  \"b\": [\n    \"x\\\\y\",\n    null\n  ]\n\x7d" := rfl
example : pyDumps (.obj []) = "\x7b\x7d" := rfl

/-! ## `json.loads` -/

/-- JSON whitespace (what `json.loads` skips between tokens). -/
def skipWs : List Char → List Char
  | [] => []
  | c :: cs =>
      if c == ' ' || c == '\t' || c == '\n' || c == '\r' then skipWs cs else c :: cs

/-- Value of a hex digit character. -/
def hexVal (c : Char) : Option Nat :=
  if '0' ≤ c && c ≤ '9' then some (c.toNat - 48)
  else if 'a' ≤ c && c ≤ 'f' then some (c.toNat - 87)
  else if 'A' ≤ c && c ≤ 'F' then some (c.toNat - 55)
  else none

/-- The decoded character for a single-character JSON escape (`\u` aside). -/
def escChar (e : Char) : Option Char :=
  if e == '"' then some '"'
  else if e == '\\' then some '\\'
  else if e == '/' then some '/'
  else if e == 'b' then some '\x08'
  else if e == 'f' then some '\x0c'
  else if e == 'n' then some '\n'
  else if e == 'r' then some '\r'
  else if e == 't' then some '\t'
  else none

/-- Body of a JSON string literal (opening quote already consumed):
returns the decoded characters and the rest of the input. -/
def parseJString (acc : List Char) : List Char → Option (String × List Char)
  | [] => none
  | '"' :: cs => some (List.asString acc.reverse, cs)
  | '\\' :: 'u' :: h1 :: h2 :: h3 :: h4 :: cs2 =>
    (match hexVal h1, hexVal h2, hexVal h3, hexVal h4 with
     | some a, some b, some c2, some d =>
       parseJString (Char.ofNat (((a * 16 + b) * 16 + c2) * 16 + d) :: acc) cs2
     | _, _, _, _ => none)
  | '\\' :: e :: cs =>
    (match escChar e with
     | some c => parseJString (c :: acc) cs
     | none => none)
  | c :: cs => parseJString (c :: acc) cs

/-- Longest digit run at the head of the input. -/
def spanDigits : List Char → List Char × List Char
  | [] => ([], [])
  | c :: cs =>
      if c.isDigit then
        let (d, r) := spanDigits cs
        (c :: d, r)
      else ([], c :: cs)

/-- A JSON number.  Restriction of the model: only integers (no fraction or
exponent part — floats never occur in this program's data); the JSON
grammar's no-leading-zero rule is enforced as `json.loads` does. -/
def parseJNum (cs : List Char) : Option (Int × List Char) :=
  let (neg, cs1) := match cs with
    | '-' :: r => (true, r)
    | _ => (false, cs)
  match spanDigits cs1 with
  | ([], _) => none
  | (d :: ds, rest) =>
    if d == '0' && !ds.isEmpty then none
    else
      match rest with
      | r :: _ => if r == '.' || r == 'e' || r == 'E' then none else
          (digitsVal (d :: ds)).map (fun n => (if neg then -(Int.ofNat n) else Int.ofNat n, rest))
      | [] => (digitsVal (d :: ds)).map (fun n => (if neg then -(Int.ofNat n) else Int.ofNat n, rest))

/-- Python-dict insertion used while decoding an object: a repeated key
overwrites in place, a new key is appended. -/
def dictInsert (kvs : List (String × Json)) (k : String) (v : Json) : List (String × Json) :=
  if kvs.any (fun p => p.1 == k) then
    kvs.map (fun p => if p.1 == k then (k, v) else p)
  else kvs ++ [(k, v)]

mutual

/-- Recursive-descent JSON value parser (fuelled; the fuel passed by
`pyJsonLoads` always suffices for its input). -/
def parseJValue : Nat → List Char → Option (Json × List Char)
  | 0, _ => none
  | fuel + 1, cs =>
    match skipWs cs with
    | '"' :: rest => (parseJString [] rest).map (fun p => (.str p.1, p.2))
    | 'n' :: 'u' :: 'l' :: 'l' :: rest => some (.null, rest)
    | 't' :: 'r' :: 'u' :: 'e' :: rest => some (.bool true, rest)
    | 'f' :: 'a' :: 'l' :: 's' :: 'e' :: rest => some (.bool false, rest)
    | '[' :: rest =>
      (match skipWs rest with
       | ']' :: rest2 => some (.arr [], rest2)
       | _ => (parseJElems fuel rest).map (fun p => (.arr p.1, p.2)))
    | '\x7b' :: rest =>
      (match skipWs rest with
       | '\x7d' :: rest2 => some (.obj [], rest2)
       | _ => (parseJMembers fuel rest).map (fun p =>
           (.obj (p.1.foldl (fun d q => dictInsert d q.1 q.2) []), p.2)))
    | other => (parseJNum other).map (fun p => (.num p.1, p.2))

/-- One or more comma-separated array elements followed by `]`. -/
def parseJElems : Nat → List Char → Option (List Json × List Char)
  | 0, _ => none
  | fuel + 1, cs =>
    match parseJValue fuel cs with
    | none => none
    | some (v, rest) =>
      match skipWs rest with
      | ',' :: rest2 =>
        (parseJElems fuel rest2).map (fun p => (v :: p.1, p.2))
      | ']' :: rest2 => some ([v], rest2)
      | _ => none

/-- One or more comma-separated `"key": value` members followed by `}`. -/
def parseJMembers : Nat → List Char → Option (List (String × Json) × List Char)
  | 0, _ => none
  | fuel + 1, cs =>
    match skipWs cs with
    | '"' :: rest =>
      match parseJString [] rest with
      | none => none
      | some (k, rest2) =>
        match skipWs rest2 with
        | ':' :: rest3 =>
          match parseJValue fuel rest3 with
          | none => none
          | some (v, rest4) =>
            match skipWs rest4 with
            | ',' :: rest5 =>
              (parseJMembers fuel rest5).map (fun p => ((k, v) :: p.1, p.2))
            | '\x7d' :: rest5 => some ([(k, v)], rest5)
            | _ => none
        | _ => none
    | _ => none

end

/-- `json.loads(content)`: parse one JSON value, require only whitespace
after it; the `String` error models `json.JSONDecodeError`. -/
def pyJsonLoads (content : String) : Except String Json :=
  match parseJValue (2 * (content.data.length + 1)) content.data with
  | none => .error "Expecting value"
  | some (v, rest) =>
    match skipWs rest with
    | [] => .ok v
    | _ => .error "Extra data"

/-- Serialize-then-parse returns a value Python-equal to the input.  This
holds for every actual Python dict; it is (decidably) checked per manifest
where needed. -/
def roundtrips (v : Json) : Bool :=
  match pyJsonLoads (pyDumps v) with
  | .ok w => jsonEq w v
  | .error _ => false

example : pyJsonLoads "\x7b \"a\": [1, -2, \"x\\u0041\"] \x7d" =
    .ok (.obj [("a", .arr [.num 1, .num (-2), .str "xA"])]) := rfl
example : pyJsonLoads "\x7b\x7d" = .ok (.obj []) := rfl
example : pyJsonLoads "01" = .error "Expecting value" := rfl
example : pyJsonLoads "\x7b\"a\": 1\x7d extra" = .error "Extra data" := rfl
example : roundtrips (.obj [("a", .num 1), ("b", .arr [.str "x\\y", .null, .bool true])]) = true := rfl
example : jsonEq (.obj [("a", .num 1), ("b", .num 2)]) (.obj [("b", .num 2), ("a", .num 1)]) = true := rfl

/-! ## The output directory and `write_manifest` -/

/-- The state of the output directory: file name to textual content. -/
structure FS where
  files : List (String × String)
deriving DecidableEq

/-- First content stored under a name. -/
def lookupFile : List (String × String) → String → Option String
  | [], _ => none
  | (n, c) :: rest, nm => if n == nm then some c else lookupFile rest nm

/-- Store content under a name, replacing an existing entry. -/
def setFile : List (String × String) → String → String → List (String × String)
  | [], nm, c => [(nm, c)]
  | (n, c0) :: rest, nm, c =>
    if n == nm then (nm, c) :: rest else (n, c0) :: setFile rest nm c

/-- Read an existing file (`none`: the file does not exist). -/
def fsRead (fs : FS) (name : String) : Option String :=
  lookupFile fs.files name

/-- `filename.write_text(content)`: overwrite or create. -/
def fsWrite (fs : FS) (name content : String) : FS :=
  ⟨setFile fs.files name content⟩

/-- `write_manifest`: if the target file exists, `json.loads` its content
(an undecodable file raises) and skip the write when the decoded value is
`==` the manifest; otherwise write `json.dumps(manifest, indent=2)`.
Returns the new directory state and the log line printed. -/
def write_manifest (manifest : Json) (filename : String) (fs : FS) :
    Except PyErr (FS × List String) :=
  match fsRead fs filename with
  | some content =>
    match pyJsonLoads content with
    | .error m => .error (.jsonDecodeError m)
    | .ok old =>
      if jsonEq old manifest then
        .ok (fs, ["[SKIP] " ++ filename ++ " unchanged."])
      else
        .ok (fsWrite fs filename (pyDumps manifest),
             ["[OK] Generated manifest: " ++ filename])
  | none =>
    .ok (fsWrite fs filename (pyDumps manifest),
         ["[OK] Generated manifest: " ++ filename])

example :
    write_manifest (.obj [("a", .num 1)]) "kubectl.json" ⟨[]⟩ =
      .ok (⟨[("kubectl.json", "\x7b\n  \"a\": 1\n\x7d")]⟩,
           ["[OK] Generated manifest: kubectl.json"]) := rfl
example :
    write_manifest (.obj [("a", .num 1)]) "kubectl.json"
        ⟨[("kubectl.json", "\x7b\n  \"a\": 1\n\x7d")]⟩ =
      .ok (⟨[("kubectl.json", "\x7b\n  \"a\": 1\n\x7d")]⟩,
           ["[SKIP] kubectl.json unchanged."]) := rfl

/-! ## GitHub tag discovery (`fetch_github_tags_for_version` and friends) -/

/-- The paginated tags endpoint URL for one page. -/
def tagsUrl (page : Nat) : String :=
  "https://api.github.com/repos/kubernetes/kubernetes/tags?per_page=100&page=" ++ toString page

/-- `major_minor ++ "."`, the required tag-name head for one release line. -/
def lineDot (major_minor : String) : String := major_minor ++ "."

/-- The body of `for tag in data`: `tag.get("name", "").lstrip("v")`, keep
the name when it starts with `"{major_minor}."`.  A tag that is not a dict,
or whose `name` is not a string, raises (`AttributeError`), which is not
caught anywhere in the script. -/
def collectTagNames (major_minor : String) : List Json → Except PyErr (List String)
  | [] => .ok []
  | tag :: rest =>
    match tag with
    | .obj kvs =>
      match (jsonLookup kvs "name").getD (Json.str "") with
      | .str s =>
        let tag_name := pyLStrip s 'v'
        (match collectTagNames major_minor rest with
         | .ok names =>
           .ok (if (lineDot major_minor).data.isPrefixOf tag_name.data
                then tag_name :: names else names)
         | .error e => .error e)
      | _ => .error (.otherError "AttributeError: lstrip")
    | _ => .error (.otherError "AttributeError: get")

/-- The paging loop of `fetch_github_tags_for_version`: starts at page 1,
breaks on a falsy page body, and stops after page 10 (`if page > 10`). -/
def github_pages_loop (env : NetEnv) (major_minor : String) :
    Nat → Nat → List String → Except PyErr (List String)
  | _, 0, acc => .ok acc
  | page, fuel + 1, acc =>
    match env.json (tagsUrl page) with
    | .error e => .error e
    | .ok data =>
      if jsonFalsy data then .ok acc
      else
        match data with
        | .arr tagList =>
          (match collectTagNames major_minor tagList with
           | .error e => .error e
           | .ok names => github_pages_loop env major_minor (page + 1) fuel (acc ++ names))
        | _ => .error (.otherError "TypeError: not iterable")

/-- `fetch_github_tags_for_version`: tag names of the requested release line
from at most 10 pages of the tags API. -/
def fetch_github_tags_for_version (env : NetEnv) (major_minor : String) :
    Except PyErr (List String) :=
  github_pages_loop env major_minor 1 10 []

/-- Stable insert for a descending sort keyed by `key` (earlier elements stay
in front of later equal-key elements, as with `list.sort(key=..., reverse=True)`). -/
def insertDescBy (key : String → List Int) (x : String) : List String → List String
  | [] => [x]
  | y :: ys =>
    if pyTupleLt (key x) (key y) then y :: insertDescBy key x ys
    else x :: y :: ys

/-- `matching_versions.sort(key=parse_version, reverse=True)`: stable
descending sort by the parsed version tuple. -/
def sortDescBy (key : String → List Int) : List String → List String
  | [] => []
  | x :: xs => insertDescBy key x (sortDescBy key xs)

/-- `get_latest_feature_version_from_github`: collect matching tags, raise
`ValueError` when there are none, raise `ValueError` when applying the sort
key to a malformed tag fails, else sort descending and take the head.
Returns the chosen version with the log line printed. -/
def get_latest_feature_version_from_github (env : NetEnv) (major_minor : String) :
    Except PyErr (String × List String) :=
  match fetch_github_tags_for_version env major_minor with
  | .error e => .error e
  | .ok matching_versions =>
    if matching_versions.isEmpty then
      .error (.valueError ("No tags found for version " ++ major_minor))
    else
      match matching_versions.mapM parse_version with
      | none => .error (.valueError "invalid literal for int() with base 10")
      | some _ =>
        let latest_version :=
          (sortDescBy (fun s => (parse_version s).getD []) matching_versions).headD ""
        .ok (latest_version,
             ["[INFO] Found " ++ toString matching_versions.length ++ " versions for "
               ++ major_minor ++ ", latest is " ++ latest_version])

example :
    get_latest_feature_version_from_github
      ⟨fun _ => .error .timeoutError,
       fun url =>
         if url == tagsUrl 1 then
           .ok (.arr [.obj [("name", .str "v1.20.4")], .obj [("name", .str "v1.21.0")],
                      .obj [("name", .str "v1.20.11-rc.0")], .obj [("name", .str "v1.20.11")]])
         else .ok (.arr [])⟩
      "1.20" =
    .ok ("1.20.11-rc.0", ["[INFO] Found 3 versions for 1.20, latest is 1.20.11-rc.0"]) := rfl

/-! ## `main` -/

/-- The latest-version steps of `main` (before the feature-version loop):
fetch `stable.txt`, generate the manifest, write `kubectl.json`.  None of
these statements is inside a `try`, so any exception propagates and aborts
the whole run. -/
def run_latest (env : NetEnv) (fs : FS) : Except PyErr (FS × List String) :=
  match fetch_version_file env "https://dl.k8s.io/release/stable.txt" with
  | .error e => .error e
  | .ok latest_version =>
    match generate_manifest_dict env latest_version with
    | .error e => .error e
    | .ok (latest_manifest, glog) =>
      match write_manifest latest_manifest LATEST_VERSION_FILE fs with
      | .error e => .error e
      | .ok (fs1, wlog) =>
        .ok (fs1, ("[INFO] Latest kubectl version: " ++ latest_version) :: (glog ++ wlog))

/-- The second `try` block of the feature-version loop, entered with the
resolved `latest_feature`: generate the manifest, suppress the write (with a
warning) when its architecture dict is empty, else write
`kubectl{major_minor}.json`.  Every exception is caught (`except Exception`)
and logged; the loop then continues. -/
def process_version (env : NetEnv) (fs : FS) (major_minor latest_feature : String) :
    FS × List String :=
  match generate_manifest_dict env latest_feature with
  | .error e =>
    (fs, ["[ERROR] Failed to generate manifest for " ++ major_minor ++ " version "
            ++ latest_feature ++ ": " ++ errMsg e])
  | .ok (manifest, glog) =>
    match jsonGet manifest "architecture" with
    | none =>
      (fs, glog ++ ["[ERROR] Failed to generate manifest for " ++ major_minor ++ " version "
                      ++ latest_feature ++ ": KeyError"])
    | some archJson =>
      if jsonFalsy archJson then
        (fs, glog ++ ["[WARN] No architectures available for " ++ major_minor ++ " version "
                        ++ latest_feature ++ ", skipping manifest generation."])
      else
        match write_manifest manifest ("kubectl" ++ major_minor ++ ".json") fs with
        | .ok (fs2, wlog) => (fs2, glog ++ wlog)
        | .error e =>
          (fs, glog ++ ["[ERROR] Failed to generate manifest for " ++ major_minor ++ " version "
                          ++ latest_feature ++ ": " ++ errMsg e])

/-- One iteration of the feature-version loop: fetch
`stable-{major_minor}.txt`; on `aiohttp.ClientResponseError` fall back to the
GitHub tags API (any exception there skips the line); any other exception of
the stable-file fetch propagates and aborts the run.  With a resolved
version, continue with `process_version`. -/
def process_line (env : NetEnv) (fs : FS) (major_minor : String) :
    Except PyErr (FS × List String) :=
  let url := "https://dl.k8s.io/release/stable-" ++ major_minor ++ ".txt"
  match fetch_version_file env url with
  | .ok latest_feature =>
    let r := process_version env fs major_minor latest_feature
    .ok (r.1, ("[INFO] Found stable version for " ++ major_minor ++ ": " ++ latest_feature)
              :: r.2)
  | .error (.clientResponseError _) =>
    let wlog := ["[WARN] Could not fetch stable version for " ++ major_minor ++ " from "
                   ++ url ++ ", trying GitHub API..."]
    (match get_latest_feature_version_from_github env major_minor with
     | .ok (latest_feature, gilog) =>
       let r := process_version env fs major_minor latest_feature
       .ok (r.1, wlog ++ gilog
                 ++ ["[INFO] Found version for " ++ major_minor ++ " from GitHub: "
                       ++ latest_feature]
                 ++ r.2)
     | .error github_e =>
       .ok (fs, wlog ++ ["[ERROR] Could not fetch version for " ++ major_minor
                           ++ " from GitHub either: " ++ errMsg github_e ++ ", skipping."]))
  | .error e => .error e

/-- The feature-version loop of `main` over the configured lines. -/
def run_lines (env : NetEnv) : List String → FS → Except PyErr (FS × List String)
  | [], fs => .ok (fs, [])
  | major_minor :: rest, fs =>
    match process_line env fs major_minor with
    | .error e => .error e
    | .ok (fs1, l1) =>
      match run_lines env rest fs1 with
      | .error e => .error e
      | .ok (fs2, l2) => .ok (fs2, l1 ++ l2)

/-- The whole of the script's `main`, as a function of the network oracle and
the initial state of the bucket directory: the latest-version steps, then the
feature-version loop.  `.error` is an exception escaping `main` (the process
dies with a traceback).  (Named `mainScript` because Lean reserves `main`.) -/
def mainScript (env : NetEnv) (fs : FS) : Except PyErr (FS × List String) :=
  match run_latest env fs with
  | .error e => .error e
  | .ok (fs1, l1) =>
    match run_lines env FEATURE_VERSIONS fs1 with
    | .error e => .error e
    | .ok (fs2, l2) => .ok (fs2, l1 ++ l2)

/-! ## Extractors used to state concrete runs compactly -/

/-- The manifest of a successful `generate_manifest_dict` run. -/
def exOkManifest (r : Except PyErr (Json × List String)) : Json :=
  match r with
  | .ok (m, _) => m
  | .error _ => .null

/-- The log of a successful `generate_manifest_dict` run. -/
def exOkMLog (r : Except PyErr (Json × List String)) : List String :=
  match r with
  | .ok (_, l) => l
  | .error _ => []

/-- The directory state of a successful run step. -/
def exOkFS (r : Except PyErr (FS × List String)) : FS :=
  match r with
  | .ok (fs, _) => fs
  | .error _ => ⟨[]⟩

/-- The log of a successful run step. -/
def exOkLog (r : Except PyErr (FS × List String)) : List String :=
  match r with
  | .ok (_, l) => l
  | .error _ => []

/-- The `hash` value recorded for one architecture of a manifest. -/
def archHash (m : Json) (arch : String) : Option String :=
  match jsonGet m "architecture" with
  | some a =>
    (match jsonGet a arch with
     | some entry =>
       (match jsonGet entry "hash" with
        | some (.str h) => some h
        | _ => none)
     | none => none)
  | none => none

/-! ## Lemmas about the split used by `parse_version` -/

theorem splitCharsP_head_append (p : Char → Bool) (sep : Char) (hsep : p sep = true)
    (xs ys : List Char) :
    (splitCharsP p (xs ++ sep :: ys)).headD [] = (splitCharsP p xs).headD [] := by
  induction xs with
  | nil => simp [splitCharsP, hsep]
  | cons c xs ih =>
    by_cases hc : p c = true
    · simp [splitCharsP, hc]
    · simp only [Bool.not_eq_true] at hc
      simp only [List.cons_append, splitCharsP, hc, Bool.false_eq_true, if_false,
                 List.headD_cons, List.append_eq]
      rw [ih]

theorem headD_map_asString (l : List (List Char)) :
    ((l.map List.asString).headD "") = List.asString (l.headD []) := by
  cases l <;> rfl

/-! ## Claim theorems -/

/-- **C1.**  For every version string whose parsed numeric tuple is
`>= (1, 21, 0)`, `archs_for_version` returns the base architecture map
`{64bit: amd64, 32bit: 386}` extended with the `arm64` entry; for every
version whose parsed tuple is `< (1, 21, 0)` the result is exactly the base
map, with `arm64` absent. -/
theorem C1_archs_for_version (version : String) (t : List Int)
    (h : parse_version version = some t) :
    (pyTupleGe t ARM64_START_VERSION = true →
      archs_for_version version = some (ARCHS_BASE ++ [("arm64", "arm64")])) ∧
    (pyTupleGe t ARM64_START_VERSION = false →
      archs_for_version version = some ARCHS_BASE) := by
  unfold archs_for_version
  rw [h]
  constructor <;> intro hge <;> simp [hge]

/-- Witness for C1 at `"1.21.5"` (arm64 present) and `"1.20.9"` (absent). -/
theorem C1_archs_for_version_witness :
    parse_version "1.21.5" = some [1, 21, 5] ∧
    archs_for_version "1.21.5" =
      some [("64bit", "amd64"), ("32bit", "386"), ("arm64", "arm64")] ∧
    parse_version "1.20.9" = some [1, 20, 9] ∧
    archs_for_version "1.20.9" = some [("64bit", "amd64"), ("32bit", "386")] :=
  ⟨rfl, (C1_archs_for_version "1.21.5" [1, 21, 5] rfl).1 rfl,
   rfl, (C1_archs_for_version "1.20.9" [1, 20, 9] rfl).2 rfl⟩

/-- **C3.**  `parse_version` ignores any `-`-introduced pre-release suffix:
for all strings `V` and `S`, `parse_version (V ++ "-" ++ S) = parse_version V`
(both may fail, in which case both fail alike); in particular
`"1.22.0-rc.1"` and `"1.22.0"` parse to the same tuple, so the capability
gates — which compare the parsed tuples lexicographically — treat them
identically. -/
theorem C3_parse_version_ignores_suffix :
    (∀ V S : String, parse_version (V ++ "-" ++ S) = parse_version V) ∧
    parse_version "1.22.0-rc.1" = parse_version "1.22.0" := by
  have key : ∀ V S : String, parse_version (V ++ "-" ++ S) = parse_version V := by
    intro V S
    unfold parse_version pySplit splitChars
    have hdata : (V ++ "-" ++ S).data = V.data ++ '-' :: S.data := by
      simp [String.data_append]
    rw [hdata, headD_map_asString, headD_map_asString,
        splitCharsP_head_append (· == '-') '-' (by simp) V.data S.data]
  exact ⟨key, key "1.22.0" "rc.1"⟩

/-! ## Characterisation of successful `generate_manifest_dict` runs -/

/-- The architecture list `generate_manifest_dict` iterates over, as a
function of the parsed version tuple. -/
def archesOf (t : List Int) : List (String × String) :=
  if pyTupleGe t ARM64_START_VERSION then ARCHS_BASE ++ [("arm64", "arm64")]
  else ARCHS_BASE

/-- The bundled-binary list of `generate_manifest_dict`, as a function of the
parsed version tuple. -/
def binsOf (t : List Int) : List String :=
  if pyTupleGe t CONVERT_START_VERSION then ["kubectl.exe", "kubectl-convert.exe"]
  else ["kubectl.exe"]

theorem need_convert_eq (version : String) (t : List Int)
    (h : parse_version version = some t) :
    need_convert version = some (pyTupleGe t CONVERT_START_VERSION) := by
  unfold need_convert
  rw [h]
  rfl

theorem archs_for_version_eq (version : String) (t : List Int)
    (h : parse_version version = some t) :
    archs_for_version version = some (archesOf t) := by
  unfold archs_for_version archesOf
  rw [h]
  rfl

/-- A successful `generate_manifest_dict` run is exactly: the checksum loop
succeeded on the resolved architecture list, and the result is the manifest
literal over its entries. -/
theorem generate_manifest_dict_ok (env : NetEnv) (version : String) (t : List Int)
    (m : Json) (l : List String)
    (ht : parse_version version = some t)
    (hg : generate_manifest_dict env version = .ok (m, l)) :
    ∃ arch_dict,
      build_arch_dict env version (archesOf t) = .ok (arch_dict, l) ∧
      m = manifestDict version (binsOf t) (archesOf t) arch_dict := by
  unfold generate_manifest_dict at hg
  rw [need_convert_eq version t ht, archs_for_version_eq version t ht] at hg
  simp only at hg
  rcases hb : build_arch_dict env version (archesOf t) with e | pr
  · rw [hb] at hg
    cases hg
  · obtain ⟨d, log⟩ := pr
    rw [hb] at hg
    simp only [Except.ok.injEq, Prod.mk.injEq] at hg
    obtain ⟨hm, hl⟩ := hg
    refine ⟨d, by rw [← hl], ?_⟩
    rw [← hm]
    unfold manifestDict binsOf
    rcases pyTupleGe t CONVERT_START_VERSION <;> rfl

/-- **C2.**  The `bin` list of every manifest assembled by
`generate_manifest_dict` is `["bin\kubectl.exe", "bin\kubectl-convert.exe"]`
when the parsed version tuple is `>= (1, 22, 0)`, and exactly
`["bin\kubectl.exe"]` otherwise. -/
theorem C2_manifest_bin (env : NetEnv) (version : String) (t : List Int)
    (m : Json) (l : List String)
    (ht : parse_version version = some t)
    (hg : generate_manifest_dict env version = .ok (m, l)) :
    jsonGet m "bin" =
      some (.arr (if pyTupleGe t CONVERT_START_VERSION
        then [.str "bin\\kubectl.exe", .str "bin\\kubectl-convert.exe"]
        else [.str "bin\\kubectl.exe"])) := by
  obtain ⟨d, -, hm⟩ := generate_manifest_dict_ok env version t m l ht hg
  subst hm
  cases hc : pyTupleGe t CONVERT_START_VERSION <;>
    simp [manifestDict, binsOf, jsonGet, jsonLookup, hc]

/-! ### C7 and C8: eager checksum fetching and its failure handling -/

/-- Evaluation of the checksum loop when every fetch succeeds (the `arm64`
fetch is only required for versions `>= 1.21`). -/
theorem build_arch_dict_all_ok (env : NetEnv) (version : String) (t : List Int)
    (h64 h32 hA : String)
    (hf64 : fetch_sha256 env (shaUrl version "amd64") = .ok h64)
    (hf32 : fetch_sha256 env (shaUrl version "386") = .ok h32)
    (hfA : pyTupleGe t ARM64_START_VERSION = true →
      fetch_sha256 env (shaUrl version "arm64") = .ok hA) :
    build_arch_dict env version (archesOf t) =
      .ok (if pyTupleGe t ARM64_START_VERSION then
             ([("64bit", archEntry version "amd64" h64),
               ("32bit", archEntry version "386" h32),
               ("arm64", archEntry version "arm64" hA)],
              [infoAdded "64bit" version, infoAdded "32bit" version,
               infoAdded "arm64" version])
           else
             ([("64bit", archEntry version "amd64" h64),
               ("32bit", archEntry version "386" h32)],
              [infoAdded "64bit" version, infoAdded "32bit" version])) := by
  cases hge : pyTupleGe t ARM64_START_VERSION
  · simp [archesOf, ARCHS_BASE, hge, build_arch_dict, hf64, hf32]
  · simp [archesOf, ARCHS_BASE, hge, build_arch_dict, hf64, hf32, hfA hge]

/-- **Counterexample to C7 as stated.**  Manifest assembly is claimed to
perform no network access, with checksums referenced by URL instead of being
fetched eagerly.  In fact `generate_manifest_dict` issues one checksum fetch
per architecture and embeds the fetched value: two networks that answer the
`.sha256` URLs differently yield different manifests. -/
theorem C7_no_network_counterexample :
    archHash (exOkManifest (generate_manifest_dict (envConst "aaaa file") "1.20.0")) "64bit" =
      some "aaaa" ∧
    archHash (exOkManifest (generate_manifest_dict (envConst "bbbb file") "1.20.0")) "64bit" =
      some "bbbb" ∧
    exOkManifest (generate_manifest_dict (envConst "aaaa file") "1.20.0") ≠
      exOkManifest (generate_manifest_dict (envConst "bbbb file") "1.20.0") :=
  ⟨rfl, rfl,
   fun h => absurd (congrArg (fun m => archHash m "64bit") h) (by decide)⟩

/-- **C7, amended.**  Manifest assembly fetches each resolved architecture's
checksum eagerly from its `.sha256` URL and embeds the fetched value in that
architecture's `hash` field; only the autoupdate block references checksums
by URL template.  With every fetch succeeding, the assembled manifest is
exactly the manifest literal over those fetched values. -/
theorem C7_eager_checksum_fetch (env : NetEnv) (version : String) (t : List Int)
    (h64 h32 hA : String)
    (ht : parse_version version = some t)
    (hf64 : fetch_sha256 env (shaUrl version "amd64") = .ok h64)
    (hf32 : fetch_sha256 env (shaUrl version "386") = .ok h32)
    (hfA : pyTupleGe t ARM64_START_VERSION = true →
      fetch_sha256 env (shaUrl version "arm64") = .ok hA) :
    generate_manifest_dict env version =
      .ok (if pyTupleGe t ARM64_START_VERSION then
             (manifestDict version (binsOf t) (archesOf t)
                [("64bit", archEntry version "amd64" h64),
                 ("32bit", archEntry version "386" h32),
                 ("arm64", archEntry version "arm64" hA)],
              [infoAdded "64bit" version, infoAdded "32bit" version,
               infoAdded "arm64" version])
           else
             (manifestDict version (binsOf t) (archesOf t)
                [("64bit", archEntry version "amd64" h64),
                 ("32bit", archEntry version "386" h32)],
              [infoAdded "64bit" version, infoAdded "32bit" version])) := by
  unfold generate_manifest_dict
  rw [need_convert_eq version t ht, archs_for_version_eq version t ht]
  simp only
  rw [build_arch_dict_all_ok env version t h64 h32 hA hf64 hf32 hfA]
  cases hge : pyTupleGe t ARM64_START_VERSION <;> simp [hge, manifestDict, binsOf]

/-- Witness for the amended C7 at `"1.21.3"` with every checksum request
answering `"cafe file"`: all three architectures carry the fetched value. -/
theorem C7_eager_checksum_fetch_witness :
    parse_version "1.21.3" = some [1, 21, 3] ∧
    fetch_sha256 (envConst "cafe file") (shaUrl "1.21.3" "amd64") = .ok "cafe" ∧
    generate_manifest_dict (envConst "cafe file") "1.21.3" =
      .ok (manifestDict "1.21.3" ["kubectl.exe"]
             (ARCHS_BASE ++ [("arm64", "arm64")])
             [("64bit", archEntry "1.21.3" "amd64" "cafe"),
              ("32bit", archEntry "1.21.3" "386" "cafe"),
              ("arm64", archEntry "1.21.3" "arm64" "cafe")],
           [infoAdded "64bit" "1.21.3", infoAdded "32bit" "1.21.3",
            infoAdded "arm64" "1.21.3"]) :=
  ⟨rfl, rfl,
   C7_eager_checksum_fetch (envConst "cafe file") "1.21.3" [1, 21, 3]
     "cafe" "cafe" "cafe" rfl rfl rfl (fun _ => rfl)⟩

/-- A network whose checksum request for the 64-bit build of 1.20.0 times
out while every other request succeeds. -/
def envShaTimeout : NetEnv :=
  ⟨fun url =>
     if url == shaUrl "1.20.0" "amd64" then .error .timeoutError
     else .ok "abc123 kubernetes-client-windows-386.tar.gz",
   fun _ => .error .timeoutError⟩

/-- **Counterexample to C8 as stated.**  Only `aiohttp.ClientResponseError`
is caught in the checksum loop.  A timeout on the 64-bit checksum fetch is
not caught: assembly of the whole manifest aborts, although the sibling
386 checksum was available. -/
theorem C8_uncaught_failure_counterexample :
    fetch_sha256 envShaTimeout (shaUrl "1.20.0" "386") = .ok "abc123" ∧
    generate_manifest_dict envShaTimeout "1.20.0" = .error .timeoutError :=
  ⟨rfl, rfl⟩

/-- **C8, amended.**  A checksum-fetch failure raised as an HTTP response
error (`aiohttp.ClientResponseError`, i.e. a non-2xx status) is caught and
logged, and only that architecture is omitted; the sibling architectures are
assembled normally.  (Failures of other classes — timeouts, connection
errors — propagate and abort the assembly, as the counterexample shows.) -/
theorem C8_cre_skips_architecture (env : NetEnv) (version : String) (t : List Int)
    (msg h32 hA : String)
    (ht : parse_version version = some t)
    (hf64 : fetch_sha256 env (shaUrl version "amd64") = .error (.clientResponseError msg))
    (hf32 : fetch_sha256 env (shaUrl version "386") = .ok h32)
    (hfA : pyTupleGe t ARM64_START_VERSION = true →
      fetch_sha256 env (shaUrl version "arm64") = .ok hA) :
    generate_manifest_dict env version =
      .ok (if pyTupleGe t ARM64_START_VERSION then
             (manifestDict version (binsOf t) (archesOf t)
                [("32bit", archEntry version "386" h32),
                 ("arm64", archEntry version "arm64" hA)],
              [warnSkip "64bit" version msg, infoAdded "32bit" version,
               infoAdded "arm64" version])
           else
             (manifestDict version (binsOf t) (archesOf t)
                [("32bit", archEntry version "386" h32)],
              [warnSkip "64bit" version msg, infoAdded "32bit" version])) := by
  unfold generate_manifest_dict
  rw [need_convert_eq version t ht, archs_for_version_eq version t ht]
  simp only
  cases hge : pyTupleGe t ARM64_START_VERSION
  · simp [archesOf, ARCHS_BASE, hge, build_arch_dict, hf64, hf32, manifestDict, binsOf]
  · simp [archesOf, ARCHS_BASE, hge, build_arch_dict, hf64, hf32, hfA hge,
          manifestDict, binsOf]

/-- A network answering 404 for the 64-bit checksum of 1.20.5 and
succeeding for everything else. -/
def envSha404For64 : NetEnv :=
  ⟨fun url =>
     if url == shaUrl "1.20.5" "amd64" then
       .error (.clientResponseError "404, message=Not Found")
     else .ok "1234abcd kubernetes-client-windows-386.tar.gz",
   fun _ => .error .timeoutError⟩

/-- Witness for the amended C8: the 404 on the 64-bit checksum merely drops
that architecture; the manifest still carries the 386 entry and the warning
is logged. -/
theorem C8_cre_skips_architecture_witness :
    parse_version "1.20.5" = some [1, 20, 5] ∧
    fetch_sha256 envSha404For64 (shaUrl "1.20.5" "amd64") =
      .error (.clientResponseError "404, message=Not Found") ∧
    generate_manifest_dict envSha404For64 "1.20.5" =
      .ok (manifestDict "1.20.5" ["kubectl.exe"] ARCHS_BASE
             [("32bit", archEntry "1.20.5" "386" "1234abcd")],
           [warnSkip "64bit" "1.20.5" "404, message=Not Found",
            infoAdded "32bit" "1.20.5"]) :=
  ⟨rfl, rfl,
   C8_cre_skips_architecture envSha404For64 "1.20.5" [1, 20, 5]
     "404, message=Not Found" "1234abcd" "" rfl rfl rfl
     (fun h => absurd h (by decide))⟩

/-! ### C9: the autoupdate block mirrors the architecture map -/

/-- The keys of the checksum loop's result form a subsequence of the
iterated architecture names (each is either added or skipped, in order). -/
theorem build_arch_dict_keys_sublist (env : NetEnv) (version : String) :
    ∀ (as : List (String × String)) (d : List (String × Json)) (log : List String),
      build_arch_dict env version as = .ok (d, log) →
      (d.map Prod.fst).Sublist (as.map Prod.fst) := by
  intro as
  induction as with
  | nil =>
    intro d log h
    simp only [build_arch_dict, Except.ok.injEq, Prod.mk.injEq] at h
    obtain ⟨hd, -⟩ := h
    subst hd
    simp
  | cons p rest ih =>
    obtain ⟨a, f⟩ := p
    intro d log h
    simp only [build_arch_dict] at h
    rcases hf : fetch_sha256 env (shaUrl version f) with e | hsh
    · rcases e with msg | _ | m | m | _ | m | m
      · -- ClientResponseError: the architecture is skipped
        rw [hf] at h
        simp only at h
        rcases hbr : build_arch_dict env version rest with e2 | pr
        · rw [hbr] at h
          simp at h
        · obtain ⟨tail, log2⟩ := pr
          rw [hbr] at h
          simp only [Except.ok.injEq, Prod.mk.injEq] at h
          obtain ⟨hd, -⟩ := h
          subst hd
          exact List.Sublist.cons a (ih tail log2 hbr)
      all_goals rw [hf] at h; simp at h
    · -- success: the architecture is added
      rw [hf] at h
      simp only at h
      rcases hbr : build_arch_dict env version rest with e2 | pr
      · rw [hbr] at h
        simp at h
      · obtain ⟨tail, log2⟩ := pr
        rw [hbr] at h
        simp only [Except.ok.injEq, Prod.mk.injEq] at h
        obtain ⟨hd, -⟩ := h
        subst hd
        simpa using List.Sublist.cons₂ a (ih tail log2 hbr)

/-- The keys of the autoupdate map are the iterated architecture names
filtered by membership in the checksum-loop result. -/
theorem autoupdate_arches_keys (as : List (String × String)) (d : List (String × Json)) :
    (autoupdate_arches as d).map Prod.fst =
      (as.map Prod.fst).filter (fun a => d.any (fun q => q.1 == a)) := by
  induction as with
  | nil => rfl
  | cons p rest ih =>
    obtain ⟨a, f⟩ := p
    simp only [autoupdate_arches, List.filterMap_cons, List.map_cons, List.filter_cons] at ih ⊢
    cases hin : d.any (fun q => q.1 == a) <;> simp [hin, ih]

/-- Filtering a duplicate-free list by membership in one of its
subsequences recovers exactly that subsequence. -/
theorem filter_mem_keys (l₁ : List String) :
    ∀ keys : List String, l₁.Sublist keys → keys.Nodup →
      keys.filter (fun a => l₁.any (fun k => k == a)) = l₁ := by
  intro keys hs
  induction hs with
  | slnil => intro _; rfl
  | @cons l₁ l₂ a hsub ih =>
    intro hnd
    obtain ⟨hna, hnd2⟩ := List.nodup_cons.mp hnd
    have hal : l₁.any (fun k => k == a) = false := by
      have hmem : a ∉ l₁ := fun hm => hna (hsub.subset hm)
      simp only [List.any_eq_false]
      intro k hk
      simp only [beq_iff_eq]
      exact fun he => hmem (he ▸ hk)
    simp [List.filter_cons, hal, ih hnd2]
  | @cons₂ l₁ l₂ a hsub ih =>
    intro hnd
    obtain ⟨hna, hnd2⟩ := List.nodup_cons.mp hnd
    have hsame : ∀ x ∈ l₂, ((a :: l₁).any (fun k => k == x)) = (l₁.any (fun k => k == x)) := by
      intro x hx
      have hxa : a ≠ x := fun hh => hna (hh ▸ hx)
      simp [List.any_cons, beq_iff_eq, hxa]
    rw [List.filter_cons]
    have hhead : ((a :: l₁).any (fun k => k == a)) = true := by simp
    rw [hhead]
    simp only [if_true]
    rw [List.filter_congr hsame, ih hnd2]

/-- The membership check of the autoupdate loop, restated on key lists. -/
theorem any_fst_eq_any_map (d : List (String × Json)) (x : String) :
    (d.any (fun q => q.1 == x)) = ((d.map Prod.fst).any (fun k => k == x)) := by
  induction d with
  | nil => rfl
  | cons r rest ih => simp only [List.any_cons, List.map_cons, ih]

/-- Combination: for a duplicate-free architecture list, the autoupdate map
carries exactly the keys of the checksum-loop result. -/
theorem autoupdate_keys_eq_arch_keys (env : NetEnv) (version : String)
    (as : List (String × String)) (d : List (String × Json)) (log : List String)
    (hb : build_arch_dict env version as = .ok (d, log))
    (hnd : (as.map Prod.fst).Nodup) :
    (autoupdate_arches as d).map Prod.fst = d.map Prod.fst := by
  rw [autoupdate_arches_keys]
  have hbridge : ∀ x ∈ as.map Prod.fst,
      (d.any (fun q => q.1 == x)) = ((d.map Prod.fst).any (fun k => k == x)) :=
    fun x _ => any_fst_eq_any_map d x
  rw [List.filter_congr hbridge]
  exact filter_mem_keys (d.map Prod.fst) (as.map Prod.fst)
    (build_arch_dict_keys_sublist env version as d log hb) hnd

/-- **C9.**  In every manifest assembled by `generate_manifest_dict`, the
architecture names under `autoupdate.architecture` are exactly the names in
the top-level `architecture` map — precisely the architectures whose
checksum fetch succeeded — and every autoupdate entry is a
`$version`-templated URL object. -/
theorem C9_autoupdate_matches_architecture (env : NetEnv) (version : String)
    (m : Json) (l : List String)
    (hg : generate_manifest_dict env version = .ok (m, l)) :
    ∃ archEntries autoEntries,
      jsonGet m "architecture" = some (.obj archEntries) ∧
      (jsonGet m "autoupdate").bind (fun a => jsonGet a "architecture") =
        some (.obj autoEntries) ∧
      autoEntries.map Prod.fst = archEntries.map Prod.fst ∧
      ∀ p ∈ autoEntries, ∃ folder, p.2 = Json.obj [("url", Json.str (autoUrl folder))] := by
  rcases hp : parse_version version with - | t
  · unfold generate_manifest_dict need_convert at hg
    rw [hp] at hg
    simp at hg
  · obtain ⟨d, hb, hm⟩ := generate_manifest_dict_ok env version t m l hp hg
    subst hm
    refine ⟨d, autoupdate_arches (archesOf t) d, rfl, rfl, ?_, ?_⟩
    · have hnd : ((archesOf t).map Prod.fst).Nodup := by
        cases hge : pyTupleGe t ARM64_START_VERSION <;>
          simp [archesOf, ARCHS_BASE, hge]
      exact autoupdate_keys_eq_arch_keys env version (archesOf t) d l hb hnd
    · intro p hp2
      unfold autoupdate_arches at hp2
      rw [List.mem_filterMap] at hp2
      obtain ⟨q, -, hqe⟩ := hp2
      obtain ⟨p1, p2⟩ := p
      rcases hin : d.any (fun r => r.1 == q.1) with - | -
      · rw [hin] at hqe
        simp at hqe
      · have hqe2 : some (q.1, Json.obj [("url", Json.str (autoUrl q.2))]) = some (p1, p2) := by
          rw [← hqe, hin]
          exact rfl
        injection hqe2 with hpair
        rw [Prod.mk.injEq] at hpair
        exact ⟨q.2, hpair.2.symm⟩

/-- Witness for C9: with the 64-bit checksum request answering 404, both the
architecture map and the autoupdate map contain exactly the `32bit` entry,
the latter `$version`-templated. -/
theorem C9_autoupdate_matches_architecture_witness :
    generate_manifest_dict envSha404For64 "1.20.5" =
      .ok (manifestDict "1.20.5" ["kubectl.exe"] ARCHS_BASE
             [("32bit", archEntry "1.20.5" "386" "1234abcd")],
           [warnSkip "64bit" "1.20.5" "404, message=Not Found",
            infoAdded "32bit" "1.20.5"]) ∧
    (∃ archEntries autoEntries,
      jsonGet (manifestDict "1.20.5" ["kubectl.exe"] ARCHS_BASE
                 [("32bit", archEntry "1.20.5" "386" "1234abcd")]) "architecture" =
        some (.obj archEntries) ∧
      (jsonGet (manifestDict "1.20.5" ["kubectl.exe"] ARCHS_BASE
                 [("32bit", archEntry "1.20.5" "386" "1234abcd")]) "autoupdate").bind
          (fun a => jsonGet a "architecture") =
        some (.obj autoEntries) ∧
      autoEntries.map Prod.fst = archEntries.map Prod.fst ∧
      ∀ p ∈ autoEntries, ∃ folder, p.2 = Json.obj [("url", Json.str (autoUrl folder))]) :=
  ⟨rfl,
   C9_autoupdate_matches_architecture envSha404For64 "1.20.5"
     (manifestDict "1.20.5" ["kubectl.exe"] ARCHS_BASE
        [("32bit", archEntry "1.20.5" "386" "1234abcd")])
     [warnSkip "64bit" "1.20.5" "404, message=Not Found",
      infoAdded "32bit" "1.20.5"] rfl⟩

/-! ### C10 and C4: the manifest writer -/

theorem lookupFile_setFile (files : List (String × String)) (n c : String) :
    lookupFile (setFile files n c) n = some c := by
  induction files with
  | nil => simp [setFile, lookupFile]
  | cons p rest ih =>
    obtain ⟨a, b⟩ := p
    cases h : a == n <;> simp [setFile, lookupFile, h, ih]

theorem fsRead_fsWrite (fs : FS) (n c : String) :
    fsRead (fsWrite fs n c) n = some c :=
  lookupFile_setFile fs.files n c

/-- Skip behaviour of the writer: an existing file whose content decodes to
a value `==` the manifest suppresses the write. -/
theorem write_manifest_skip_of_parsed_eq (m j : Json) (content filename : String)
    (fs : FS)
    (hread : fsRead fs filename = some content)
    (hparse : pyJsonLoads content = .ok j)
    (heq : jsonEq j m = true) :
    write_manifest m filename fs = .ok (fs, ["[SKIP] " ++ filename ++ " unchanged."]) := by
  unfold write_manifest
  rw [hread]
  simp only
  rw [hparse]
  simp only [heq, if_true]

/-- **C10.**  `write_manifest` decides "unchanged" by parsed-JSON equality:
whenever the target file exists and its content decodes to a value `==` the
manifest, no write happens and `[SKIP]` is reported — regardless of how the
on-disk text is formatted. -/
theorem C10_write_manifest_parsed_equality (m j : Json) (content filename : String)
    (fs : FS)
    (hread : fsRead fs filename = some content)
    (hparse : pyJsonLoads content = .ok j)
    (heq : jsonEq j m = true) :
    write_manifest m filename fs = .ok (fs, ["[SKIP] " ++ filename ++ " unchanged."]) :=
  write_manifest_skip_of_parsed_eq m j content filename fs hread hparse heq

/-- Witness for C10: the on-disk text differs from the canonical serialization
in key order and whitespace, yet the writer skips. -/
theorem C10_write_manifest_parsed_equality_witness :
    fsRead ⟨[("kubectl1.20.json", "\x7b\"b\": 1, \"a\": 2\x7d")]⟩ "kubectl1.20.json" =
      some "\x7b\"b\": 1, \"a\": 2\x7d" ∧
    pyJsonLoads "\x7b\"b\": 1, \"a\": 2\x7d" = .ok (.obj [("b", .num 1), ("a", .num 2)]) ∧
    jsonEq (.obj [("b", .num 1), ("a", .num 2)]) (.obj [("a", .num 2), ("b", .num 1)]) = true ∧
    "\x7b\"b\": 1, \"a\": 2\x7d" ≠ pyDumps (.obj [("a", .num 2), ("b", .num 1)]) ∧
    write_manifest (.obj [("a", .num 2), ("b", .num 1)]) "kubectl1.20.json"
        ⟨[("kubectl1.20.json", "\x7b\"b\": 1, \"a\": 2\x7d")]⟩ =
      .ok (⟨[("kubectl1.20.json", "\x7b\"b\": 1, \"a\": 2\x7d")]⟩,
           ["[SKIP] kubectl1.20.json unchanged."]) :=
  ⟨rfl, rfl, rfl, by decide,
   C10_write_manifest_parsed_equality (.obj [("a", .num 2), ("b", .num 1)])
     (.obj [("b", .num 1), ("a", .num 2)]) "\x7b\"b\": 1, \"a\": 2\x7d"
     "kubectl1.20.json" ⟨[("kubectl1.20.json", "\x7b\"b\": 1, \"a\": 2\x7d")]⟩
     rfl rfl rfl⟩

/-- **Counterexample to C4 as stated.**  The claim says the writer compares
the canonical serialization against the existing on-disk text and writes iff
that content differs.  Here the on-disk text differs from the canonical
serialization (extra spaces, no newlines), yet the writer performs no write
and reports "unchanged": the comparison is on parsed values, not text. -/
theorem C4_write_manifest_counterexample :
    "\x7b \"version\": \"1.20.0\" \x7d" ≠ pyDumps (Json.obj [("version", Json.str "1.20.0")]) ∧
    write_manifest (Json.obj [("version", Json.str "1.20.0")]) "kubectl.json"
        ⟨[("kubectl.json", "\x7b \"version\": \"1.20.0\" \x7d")]⟩ =
      .ok (⟨[("kubectl.json", "\x7b \"version\": \"1.20.0\" \x7d")]⟩,
           ["[SKIP] kubectl.json unchanged."]) :=
  ⟨by decide, rfl⟩

/-- **C4, amended.**  The writer serializes with stable key order and 2-space
indentation, but decides by parsing the existing file and comparing parsed
values; it writes iff the file is absent or its parsed content differs.
Consequently writing the same manifest twice performs one disk write and the
second run reports "unchanged" (stated for any manifest whose
serialize/parse roundtrip is faithful, which the decidable `roundtrips`
hypothesis checks). -/
theorem C4_write_manifest_idempotent (m : Json) (filename : String) (fs fs1 : FS)
    (l1 : List String)
    (hr : roundtrips m = true)
    (h1 : write_manifest m filename fs = .ok (fs1, l1)) :
    write_manifest m filename fs1 =
      .ok (fs1, ["[SKIP] " ++ filename ++ " unchanged."]) := by
  have hround : ∃ w, pyJsonLoads (pyDumps m) = .ok w ∧ jsonEq w m = true := by
    unfold roundtrips at hr
    rcases hp : pyJsonLoads (pyDumps m) with e | w
    · rw [hp] at hr
      cases hr
    · rw [hp] at hr
      exact ⟨w, rfl, hr⟩
  obtain ⟨w, hw, hweq⟩ := hround
  unfold write_manifest at h1
  rcases hread : fsRead fs filename with - | content
  · rw [hread] at h1
    simp only [Except.ok.injEq, Prod.mk.injEq] at h1
    obtain ⟨hfs1, -⟩ := h1
    subst hfs1
    exact write_manifest_skip_of_parsed_eq m w (pyDumps m) filename _
      (fsRead_fsWrite fs filename (pyDumps m)) hw hweq
  · rw [hread] at h1
    simp only at h1
    rcases hp2 : pyJsonLoads content with e | old
    · rw [hp2] at h1
      cases h1
    · rw [hp2] at h1
      simp only at h1
      rcases holdeq : jsonEq old m with - | -
      · rw [holdeq] at h1
        simp only [Bool.false_eq_true, if_false, Except.ok.injEq, Prod.mk.injEq] at h1
        obtain ⟨hfs1, -⟩ := h1
        subst hfs1
        exact write_manifest_skip_of_parsed_eq m w (pyDumps m) filename _
          (fsRead_fsWrite fs filename (pyDumps m)) hw hweq
      · rw [holdeq] at h1
        simp only [if_true, Except.ok.injEq, Prod.mk.injEq] at h1
        obtain ⟨hfs1, -⟩ := h1
        subst hfs1
        exact write_manifest_skip_of_parsed_eq m old content filename fs hread hp2 holdeq

/-- Witness for the amended C4: a fresh directory, one write, then a skip. -/
theorem C4_write_manifest_idempotent_witness :
    roundtrips (Json.obj [("version", Json.str "1.21.5")]) = true ∧
    write_manifest (Json.obj [("version", Json.str "1.21.5")]) "kubectl1.21.json" ⟨[]⟩ =
      .ok (⟨[("kubectl1.21.json", "\x7b\n  \"version\": \"1.21.5\"\n\x7d")]⟩,
           ["[OK] Generated manifest: kubectl1.21.json"]) ∧
    write_manifest (Json.obj [("version", Json.str "1.21.5")]) "kubectl1.21.json"
        ⟨[("kubectl1.21.json", "\x7b\n  \"version\": \"1.21.5\"\n\x7d")]⟩ =
      .ok (⟨[("kubectl1.21.json", "\x7b\n  \"version\": \"1.21.5\"\n\x7d")]⟩,
           ["[SKIP] kubectl1.21.json unchanged."]) :=
  ⟨rfl, rfl,
   C4_write_manifest_idempotent (Json.obj [("version", Json.str "1.21.5")])
     "kubectl1.21.json" ⟨[]⟩ _ _ rfl rfl⟩

/-- Witness for C2: with every checksum request answered 404 (so assembly
still succeeds), `"1.22.0"` bundles the convert tool and `"1.20.1"` does not. -/
theorem C2_manifest_bin_witness :
    parse_version "1.22.0" = some [1, 22, 0] ∧
    generate_manifest_dict envFail404 "1.22.0" =
      .ok (exOkManifest (generate_manifest_dict envFail404 "1.22.0"),
           exOkMLog (generate_manifest_dict envFail404 "1.22.0")) ∧
    jsonGet (exOkManifest (generate_manifest_dict envFail404 "1.22.0")) "bin" =
      some (.arr [.str "bin\\kubectl.exe", .str "bin\\kubectl-convert.exe"]) ∧
    parse_version "1.20.1" = some [1, 20, 1] ∧
    jsonGet (exOkManifest (generate_manifest_dict envFail404 "1.20.1")) "bin" =
      some (.arr [.str "bin\\kubectl.exe"]) :=
  ⟨rfl, rfl,
   C2_manifest_bin envFail404 "1.22.0" [1, 22, 0] _ _ rfl rfl,
   rfl,
   C2_manifest_bin envFail404 "1.20.1" [1, 20, 1] _ _ rfl rfl⟩

/-! ### C6: suppression of manifests with no architectures -/

/-- A network where only `stable.txt` answers (with 1.23.0) and every other
text request is a 404; the tags API is down with a non-HTTP error. -/
def envC6cx : NetEnv :=
  ⟨fun url =>
     if url == "https://dl.k8s.io/release/stable.txt" then .ok "v1.23.0"
     else .error (.clientResponseError "404, message=Not Found"),
   fun _ => .error (.otherError "api down")⟩

/-- **Counterexample to C6 as stated.**  The empty-architecture check exists
only in the feature-version loop.  For the latest version the manifest is
written unconditionally: here every checksum fetch 404s, the assembled
manifest has an empty architecture map, and `main` still writes
`kubectl.json` — the only file of the run. -/
theorem C6_latest_empty_arch_counterexample :
    Except.map (fun r => jsonGet r.1 "architecture")
        (generate_manifest_dict envC6cx "1.23.0") = .ok (some (.obj [])) ∧
    mainScript envC6cx ⟨[]⟩ =
      .ok (⟨[("kubectl.json",
              pyDumps (exOkManifest (generate_manifest_dict envC6cx "1.23.0")))]⟩,
           exOkLog (mainScript envC6cx ⟨[]⟩)) :=
  ⟨rfl, rfl⟩

/-- **C6, amended.**  For the feature-line versions, a manifest whose
architecture map is empty is suppressed: the directory state is unchanged
(no file written) and the warning is logged.  (The latest-version manifest
is written regardless, as the counterexample shows.) -/
theorem C6_feature_empty_arch_suppressed (env : NetEnv) (fs : FS)
    (major_minor latest_feature : String) (m : Json) (l : List String)
    (hg : generate_manifest_dict env latest_feature = .ok (m, l))
    (he : jsonGet m "architecture" = some (.obj [])) :
    process_version env fs major_minor latest_feature =
      (fs, l ++ ["[WARN] No architectures available for " ++ major_minor ++ " version "
                   ++ latest_feature ++ ", skipping manifest generation."]) := by
  unfold process_version
  rw [hg]
  simp only
  rw [he]
  simp [jsonFalsy]

/-- Witness for the amended C6: every checksum request 404s, so the 1.23.0
manifest resolves no architectures and the feature-loop body skips the write
with the warning. -/
theorem C6_feature_empty_arch_suppressed_witness :
    generate_manifest_dict envFail404 "1.23.0" =
      .ok (exOkManifest (generate_manifest_dict envFail404 "1.23.0"),
           exOkMLog (generate_manifest_dict envFail404 "1.23.0")) ∧
    jsonGet (exOkManifest (generate_manifest_dict envFail404 "1.23.0")) "architecture" =
      some (.obj []) ∧
    process_version envFail404 ⟨[]⟩ "1.23" "1.23.0" =
      (⟨[]⟩, exOkMLog (generate_manifest_dict envFail404 "1.23.0")
               ++ ["[WARN] No architectures available for 1.23 version 1.23.0, skipping manifest generation."]) :=
  ⟨rfl, rfl,
   C6_feature_empty_arch_suppressed envFail404 ⟨[]⟩ "1.23" "1.23.0" _ _ rfl rfl⟩

/-! ### C5: isolation of per-line failures -/

/-- A network where the per-line stable file for 1.21 times out while
everything else succeeds. -/
def envC5cx : NetEnv :=
  ⟨fun url =>
     if url == "https://dl.k8s.io/release/stable-1.21.txt" then .error .timeoutError
     else if url == "https://dl.k8s.io/release/stable.txt" then .ok "v1.23.1"
     else if url == "https://dl.k8s.io/release/stable-1.20.txt" then .ok "v1.20.15"
     else if url == "https://dl.k8s.io/release/stable-1.22.txt" then .ok "v1.22.17"
     else .ok "beef1234 kubernetes-client-windows.tar.gz",
   fun _ => .error .timeoutError⟩

/-- **Counterexample to C5 as stated.**  Only `aiohttp.ClientResponseError`
is caught around the per-line stable-file fetch.  A timeout on
`stable-1.21.txt` propagates out of the loop: the process dies, and line
1.22 — whose stable file was perfectly fetchable — is never attempted. -/
theorem C5_line_fetch_failure_fatal_counterexample :
    fetch_version_file envC5cx "https://dl.k8s.io/release/stable-1.22.txt" =
      .ok "1.22.17" ∧
    mainScript envC5cx ⟨[]⟩ = .error .timeoutError :=
  ⟨rfl, rfl⟩

/-- **C5, amended.**  When a per-line stable-version fetch fails with an
HTTP response error, the GitHub fallback runs; if that fails too (with any
exception), only that line is skipped — the directory state is untouched by
it and the sibling lines 1.20 and 1.22 are processed exactly as they would
be on their own.  (A per-line fetch failure of any other class, or any
failure in the latest-version step, aborts the run, as the counterexample
shows.) -/
theorem C5_cre_line_skip_isolated (env : NetEnv) (fs0 fs1 fs2 fs3 : FS)
    (l1 l2 l3 : List String) (msg : String) (e2 : PyErr)
    (hlatest : run_latest env fs0 = .ok (fs1, l1))
    (hs : env.text "https://dl.k8s.io/release/stable-1.21.txt" =
      .error (.clientResponseError msg))
    (hg1 : env.json (tagsUrl 1) = .error e2)
    (h20 : process_line env fs1 "1.20" = .ok (fs2, l2))
    (h22 : process_line env fs2 "1.22" = .ok (fs3, l3)) :
    mainScript env fs0 =
      .ok (fs3,
        l1 ++ l2
           ++ ["[WARN] Could not fetch stable version for 1.21 from https://dl.k8s.io/release/stable-1.21.txt, trying GitHub API...",
               "[ERROR] Could not fetch version for 1.21 from GitHub either: "
                 ++ errMsg e2 ++ ", skipping."]
           ++ l3) := by
  have hfv : fetch_version_file env "https://dl.k8s.io/release/stable-1.21.txt" =
      .error (.clientResponseError msg) := by
    unfold fetch_version_file fetch_text
    rw [hs]
    rfl
  have hgh : get_latest_feature_version_from_github env "1.21" = .error e2 := by
    unfold get_latest_feature_version_from_github fetch_github_tags_for_version
           github_pages_loop
    rw [hg1]
  have h21 : process_line env fs2 "1.21" =
      .ok (fs2,
        ["[WARN] Could not fetch stable version for 1.21 from https://dl.k8s.io/release/stable-1.21.txt, trying GitHub API...",
         "[ERROR] Could not fetch version for 1.21 from GitHub either: "
           ++ errMsg e2 ++ ", skipping."]) := by
    unfold process_line
    simp [hfv, hgh]
  unfold mainScript
  rw [hlatest]
  simp only [FEATURE_VERSIONS, run_lines, h20, h21, h22]
  simp [List.append_assoc]

/-- A network like `envC5cx`, except the 1.21 stable file answers 503 (an
HTTP response error) and the GitHub API times out. -/
def envC5W : NetEnv :=
  ⟨fun url =>
     if url == "https://dl.k8s.io/release/stable-1.21.txt" then
       .error (.clientResponseError "503, message=Service Unavailable")
     else if url == "https://dl.k8s.io/release/stable.txt" then .ok "v1.23.1"
     else if url == "https://dl.k8s.io/release/stable-1.20.txt" then .ok "v1.20.15"
     else if url == "https://dl.k8s.io/release/stable-1.22.txt" then .ok "v1.22.17"
     else .ok "beef1234 kubernetes-client-windows.tar.gz",
   fun _ => .error .timeoutError⟩

/-- Witness for the amended C5: line 1.21 is skipped (503 then GitHub
timeout, both caught) while manifests for 1.20.15 and 1.22.17 are written. -/
theorem C5_cre_line_skip_isolated_witness :
    mainScript envC5W ⟨[]⟩ =
      .ok (exOkFS (process_line envC5W
             (exOkFS (process_line envC5W (exOkFS (run_latest envC5W ⟨[]⟩)) "1.20"))
             "1.22"),
        exOkLog (run_latest envC5W ⟨[]⟩)
          ++ exOkLog (process_line envC5W (exOkFS (run_latest envC5W ⟨[]⟩)) "1.20")
          ++ ["[WARN] Could not fetch stable version for 1.21 from https://dl.k8s.io/release/stable-1.21.txt, trying GitHub API...",
              "[ERROR] Could not fetch version for 1.21 from GitHub either: "
                ++ errMsg .timeoutError ++ ", skipping."]
          ++ exOkLog (process_line envC5W
               (exOkFS (process_line envC5W (exOkFS (run_latest envC5W ⟨[]⟩)) "1.20"))
               "1.22")) ∧
    fsRead (exOkFS (mainScript envC5W ⟨[]⟩)) "kubectl1.20.json" =
      some (pyDumps (exOkManifest (generate_manifest_dict envC5W "1.20.15"))) ∧
    fsRead (exOkFS (mainScript envC5W ⟨[]⟩)) "kubectl1.22.json" =
      some (pyDumps (exOkManifest (generate_manifest_dict envC5W "1.22.17"))) :=
  ⟨C5_cre_line_skip_isolated envC5W ⟨[]⟩
     (exOkFS (run_latest envC5W ⟨[]⟩))
     (exOkFS (process_line envC5W (exOkFS (run_latest envC5W ⟨[]⟩)) "1.20"))
     (exOkFS (process_line envC5W
        (exOkFS (process_line envC5W (exOkFS (run_latest envC5W ⟨[]⟩)) "1.20")) "1.22"))
     (exOkLog (run_latest envC5W ⟨[]⟩))
     (exOkLog (process_line envC5W (exOkFS (run_latest envC5W ⟨[]⟩)) "1.20"))
     (exOkLog (process_line envC5W
        (exOkFS (process_line envC5W (exOkFS (run_latest envC5W ⟨[]⟩)) "1.20")) "1.22"))
     "503, message=Service Unavailable" .timeoutError
     rfl rfl rfl rfl rfl,
   rfl, rfl⟩
